import Mathlib

/-!
Verification of the statistics-compilation and score-computation pipeline of the
READI-LREC22 readability library, against its natural-language specification.

The embedding translates, from `library/readability/readability.py`:
  * the per-text statistics accumulation inside `Readability.compile`
    (both the single-text loop and its duplicated corpus-path copy),
  * the content-shape detection of `Readability.__init__`,
  * the short-text warning conditions of the string and flat-token paths,
  * the scoring dispatch of `Readability.score` and the dedicated accessors
    `gfi`, `ari`, `fre`, `fkgl`, `smog`, `rel`,
and, from `readability/stats/diversity.py` and
`readability/readability/stats/diversity.py`, the two near-duplicate variants
of `type_token_ratio` and `noun_token_ratio`.

The external syllable counter `utils.syllablesplit` and the sentence segmenter
of the NLP engine are parameters of the embedding (they are external
collaborators).  The `common_scores` formula module is not part of the given
sources; it is modelled from the specification where needed (see the
definitions marked `Modelled from the spec:`).
-/

namespace Readi

/-- A sentence is an ordered list of token strings. -/
abbrev Sentence := List String

/-- A canonical text is an ordered list of sentences. -/
abbrev CText := List Sentence

/-- The fixed-field statistics record built by `Readability.compile`
(`readability.py` lines 311-317 / 339-348). -/
structure Statistics where
  totalWords : Nat
  totalLongWords : Nat
  totalSentences : Nat
  totalCharacters : Nat
  totalSyllables : Nat
  nbPolysyllables : Nat
deriving Repr, DecidableEq

/-- One iteration of the `for sentence in self.content` loop of
`Readability.compile` (`readability.py` lines 305-310): each field is
incremented by the sentence's contribution. `syl` is the external
`utils.syllablesplit` counter. -/
def aggStep (syl : String → Nat) (st : Statistics) (sentence : Sentence) : Statistics :=
  { st with
    totalWords := st.totalWords + sentence.length
    totalLongWords := st.totalLongWords + (sentence.filter (fun token => 6 < token.length)).length
    totalCharacters := st.totalCharacters + (sentence.map String.length).sum
    totalSyllables := st.totalSyllables + (sentence.map syl).sum
    nbPolysyllables := st.nbPolysyllables + (sentence.filter (fun word => 3 ≤ syl word)).length }

/-- The statistics snapshot computed by the single-text branch of
`Readability.compile` (`readability.py` lines 298-317): counters start at 0,
`totalSentences = len(self.content)`, then the per-sentence loop runs. -/
def aggregate (syl : String → Nat) (text : CText) : Statistics :=
  text.foldl (aggStep syl)
    { totalWords := 0, totalLongWords := 0, totalSentences := text.length
      totalCharacters := 0, totalSyllables := 0, nbPolysyllables := 0 }

/-- The duplicated per-text statistics computation inside the corpus branch of
`Readability.compile` (`readability.py` lines 326-348), kept as its own
definition because the source duplicates the loop body rather than calling the
single-text code. -/
def aggregateCorpusText (syl : String → Nat) (text : CText) : Statistics :=
  text.foldl (aggStep syl)
    { totalWords := 0, totalLongWords := 0, totalSentences := text.length
      totalCharacters := 0, totalSyllables := 0, nbPolysyllables := 0 }

/-- The corpus branch of `Readability.compile` builds, for every class label,
the ordered list of per-text snapshots (`readability.py` lines 321-350). -/
def compiledCorpusStats (syl : String → Nat) (data : String → List CText) :
    String → List Statistics :=
  fun level => (data level).map (aggregateCorpusText syl)

section AggregateLemmas

variable (syl : String → Nat)

theorem aggFold_totalWords (t : List Sentence) (st : Statistics) :
    (t.foldl (aggStep syl) st).totalWords = st.totalWords + (t.map List.length).sum := by
  induction t generalizing st with
  | nil => simp
  | cons s ts ih => simp [aggStep, ih, Nat.add_assoc]

theorem aggFold_totalLongWords (t : List Sentence) (st : Statistics) :
    (t.foldl (aggStep syl) st).totalLongWords =
      st.totalLongWords + (t.map (fun s => (s.filter (fun token => 6 < token.length)).length)).sum := by
  induction t generalizing st with
  | nil => simp
  | cons s ts ih => simp [aggStep, ih, Nat.add_assoc]

theorem aggFold_totalSentences (t : List Sentence) (st : Statistics) :
    (t.foldl (aggStep syl) st).totalSentences = st.totalSentences := by
  induction t generalizing st with
  | nil => simp
  | cons s ts ih => simp [aggStep, ih]

theorem aggFold_totalCharacters (t : List Sentence) (st : Statistics) :
    (t.foldl (aggStep syl) st).totalCharacters =
      st.totalCharacters + (t.map (fun s => (s.map String.length).sum)).sum := by
  induction t generalizing st with
  | nil => simp
  | cons s ts ih => simp [aggStep, ih, Nat.add_assoc]

theorem aggFold_totalSyllables (t : List Sentence) (st : Statistics) :
    (t.foldl (aggStep syl) st).totalSyllables =
      st.totalSyllables + (t.map (fun s => (s.map syl).sum)).sum := by
  induction t generalizing st with
  | nil => simp
  | cons s ts ih => simp [aggStep, ih, Nat.add_assoc]

theorem aggFold_nbPolysyllables (t : List Sentence) (st : Statistics) :
    (t.foldl (aggStep syl) st).nbPolysyllables =
      st.nbPolysyllables + (t.map (fun s => (s.filter (fun word => 3 ≤ syl word)).length)).sum := by
  induction t generalizing st with
  | nil => simp
  | cons s ts ih => simp [aggStep, ih, Nat.add_assoc]

theorem filter_flatten_lengths (p : String → Bool) (t : List Sentence) :
    (t.flatten.filter p).length = (t.map (fun s => (s.filter p).length)).sum := by
  induction t with
  | nil => simp
  | cons s ts ih => simp [List.filter_append, ih, Function.comp_def]

theorem map_flatten_sum (f : String → Nat) (t : List Sentence) :
    (t.flatten.map f).sum = (t.map (fun s => (s.map f).sum)).sum := by
  induction t with
  | nil => simp
  | cons s ts ih => simp [ih, Function.comp_def]

end AggregateLemmas

end Readi

/-- C1: the snapshot produced by `compile` on a canonical text has
totalWords = sum of per-sentence token counts, totalLongWords = number of
tokens longer than 6 characters, totalSentences = number of sentences,
totalCharacters = sum of all token lengths, totalSyllables = sum of the
syllable counter's estimates, nbPolysyllables = number of tokens with
estimate ≥ 3, and totalWords ≥ 0; and the corpus path computes the same six
fields independently for every text of every class, preserving per-class text
order. -/
theorem c1_compile_statistics (syl : String → Nat) (t : Readi.CText)
    (data : String → List Readi.CText) (level : String) (i : Nat) :
    (Readi.aggregate syl t).totalWords = (t.map List.length).sum
    ∧ (Readi.aggregate syl t).totalLongWords =
        (t.flatten.filter (fun token => 6 < token.length)).length
    ∧ (Readi.aggregate syl t).totalSentences = t.length
    ∧ (Readi.aggregate syl t).totalCharacters = (t.flatten.map String.length).sum
    ∧ (Readi.aggregate syl t).totalSyllables = (t.flatten.map syl).sum
    ∧ (Readi.aggregate syl t).nbPolysyllables =
        (t.flatten.filter (fun word => 3 ≤ syl word)).length
    ∧ 0 ≤ (Readi.aggregate syl t).totalWords
    ∧ Readi.aggregateCorpusText syl t = Readi.aggregate syl t
    ∧ (Readi.compiledCorpusStats syl data level).length = (data level).length
    ∧ (Readi.compiledCorpusStats syl data level).get? i =
        ((data level).get? i).map (Readi.aggregate syl) := by
  refine ⟨?_, ?_, ?_, ?_, ?_, ?_, Nat.zero_le _, rfl, by simp [Readi.compiledCorpusStats], ?_⟩
  · simp [Readi.aggregate, Readi.aggFold_totalWords]
  · simp [Readi.aggregate, Readi.aggFold_totalLongWords, Readi.filter_flatten_lengths,
      Function.comp_def]
  · simp [Readi.aggregate, Readi.aggFold_totalSentences]
  · simp [Readi.aggregate, Readi.aggFold_totalCharacters, Readi.map_flatten_sum,
      Function.comp_def]
  · simp [Readi.aggregate, Readi.aggFold_totalSyllables, Readi.map_flatten_sum,
      Function.comp_def]
  · simp [Readi.aggregate, Readi.aggFold_nbPolysyllables, Readi.filter_flatten_lengths,
      Function.comp_def]
  · simp only [Readi.compiledCorpusStats, List.get?_eq_getElem?, List.getElem?_map]
    rfl

namespace Readi

/-- The worked example text of the specification:
`[["Le","chat","mange"], ["Il","est","content"]]`. -/
def exText : CText := [["Le", "chat", "mange"], ["Il", "est", "content"]]

/-- A concrete stand-in for the external syllable counter, used to instantiate
claims whose fields do not depend on the counter. -/
def sylOne : String → Nat := fun _ => 1

/-- The two content shapes a successfully constructed session can hold:
a single canonical text, or a corpus mapping class labels to texts
(`readability.py` lines 85-129). -/
inductive ContentVal where
  | text (t : CText)
  | corpus (data : String → List CText)

/-- The two-valued `content_type` discriminator. -/
inductive CType where
  | text
  | corpus
deriving DecidableEq, Repr

/-- The `content_type` attribute, set together with `content` at construction
and consistent with it on every successfully constructed session. -/
def ContentVal.ctype : ContentVal → CType
  | .text _ => .text
  | .corpus _ => .corpus

/-- A successfully constructed `Readability` session: the attributes set by
`__init__` plus the optional statistics attributes set by `compile`
(`statistics` / `corpus_statistics` model the Python attributes, with `none`
standing for "attribute not present"). -/
structure RSession where
  lang : String
  nlp : String
  content : ContentVal
  classes : List String
  statistics : Option Statistics
  corpus_statistics : Option (String → List Statistics)

/-- `Readability.compile` (`readability.py` lines 291-351): on a single text it
stores the aggregated snapshot in `statistics`; on a corpus it stores the
per-class snapshot lists in `corpus_statistics`; it returns the session. -/
def compileR (syl : String → Nat) (s : RSession) : RSession :=
  match s.content with
  | .text t => { s with statistics := some (aggregate syl t) }
  | .corpus data => { s with corpus_statistics := some (compiledCorpusStats syl data) }

end Readi

/-- C5 counterexample: on the example text the snapshot has totalCharacters =
23 (not 24: the six tokens have lengths 2+4+5+2+3+7) and totalLongWords = 1
("content" has 7 > 6 characters), so the claimed field values are false. -/
theorem c5_example_counterexample :
    ¬ ((Readi.aggregate Readi.sylOne Readi.exText).totalWords = 6
        ∧ (Readi.aggregate Readi.sylOne Readi.exText).totalSentences = 2
        ∧ (Readi.aggregate Readi.sylOne Readi.exText).totalCharacters = 24
        ∧ (Readi.aggregate Readi.sylOne Readi.exText).totalLongWords = 0) := by
  decide

/-- C5 amended: for every syllable counter, the snapshot of the example text
has totalWords = 6, totalSentences = 2, totalCharacters = 23 and
totalLongWords = 1. -/
theorem c5_example_statistics (syl : String → Nat) :
    (Readi.aggregate syl Readi.exText).totalWords = 6
    ∧ (Readi.aggregate syl Readi.exText).totalSentences = 2
    ∧ (Readi.aggregate syl Readi.exText).totalCharacters = 23
    ∧ (Readi.aggregate syl Readi.exText).totalLongWords = 1 := by
  have hw : (Readi.aggregate syl Readi.exText).totalWords =
      (Readi.exText.map List.length).sum := by
    simp [Readi.aggregate, Readi.aggFold_totalWords]
  have hs : (Readi.aggregate syl Readi.exText).totalSentences = Readi.exText.length := by
    simp [Readi.aggregate, Readi.aggFold_totalSentences]
  have hc : (Readi.aggregate syl Readi.exText).totalCharacters =
      (Readi.exText.map (fun s => (s.map String.length).sum)).sum := by
    simp [Readi.aggregate, Readi.aggFold_totalCharacters]
  have hl : (Readi.aggregate syl Readi.exText).totalLongWords =
      (Readi.exText.map (fun s => (s.filter (fun token => 6 < token.length)).length)).sum := by
    simp [Readi.aggregate, Readi.aggFold_totalLongWords]
  refine ⟨?_, ?_, ?_, ?_⟩
  · rw [hw]; decide
  · rw [hs]; decide
  · rw [hc]; decide
  · rw [hl]; decide

/-- C10: `compile` modifies only `statistics` (single-text case) or only
`corpus_statistics` (corpus case), returns the session itself with `content`,
`content_type`, `classes`, `lang` and `nlp` unchanged, and recompiling
replaces the snapshot with field-for-field equal values (idempotent). -/
theorem c10_compile_frame (syl : String → Nat) (s : Readi.RSession) :
    (Readi.compileR syl s).lang = s.lang
    ∧ (Readi.compileR syl s).nlp = s.nlp
    ∧ (Readi.compileR syl s).content = s.content
    ∧ (Readi.compileR syl s).content.ctype = s.content.ctype
    ∧ (Readi.compileR syl s).classes = s.classes
    ∧ (s.content.ctype = Readi.CType.text →
        (Readi.compileR syl s).corpus_statistics = s.corpus_statistics)
    ∧ (s.content.ctype = Readi.CType.corpus →
        (Readi.compileR syl s).statistics = s.statistics)
    ∧ Readi.compileR syl (Readi.compileR syl s) = Readi.compileR syl s := by
  cases h : s.content with
  | text t =>
      refine ⟨?_, ?_, ?_, ?_, ?_, ?_, ?_, ?_⟩ <;>
        simp [Readi.compileR, Readi.ContentVal.ctype, h]
  | corpus data =>
      refine ⟨?_, ?_, ?_, ?_, ?_, ?_, ?_, ?_⟩ <;>
        simp [Readi.compileR, Readi.ContentVal.ctype, h]

/-- C10 witness: at a concrete single-text session the content-type hypothesis
holds by computation, the untouched `corpus_statistics` attribute stays absent,
and recompiling is idempotent. -/
theorem c10_compile_frame_witness :
    (⟨"fr", "spacy_sm", Readi.ContentVal.text Readi.exText, [], none,
        none⟩ : Readi.RSession).content.ctype = Readi.CType.text
    ∧ (Readi.compileR Readi.sylOne
        ⟨"fr", "spacy_sm", Readi.ContentVal.text Readi.exText, [], none,
          none⟩).corpus_statistics = none
    ∧ Readi.compileR Readi.sylOne
        (Readi.compileR Readi.sylOne
          ⟨"fr", "spacy_sm", Readi.ContentVal.text Readi.exText, [], none, none⟩)
      = Readi.compileR Readi.sylOne
          ⟨"fr", "spacy_sm", Readi.ContentVal.text Readi.exText, [], none, none⟩ :=
  ⟨rfl, (c10_compile_frame Readi.sylOne _).2.2.2.2.2.1 rfl,
    (c10_compile_frame Readi.sylOne _).2.2.2.2.2.2.2⟩

namespace Readi

/-- Shape of a Python value reaching the `Readability` constructor's shape
detection: a string, a list, or a string-keyed dict (`readability.py`
lines 85-129). -/
inductive PyVal where
  | str (s : String)
  | list (xs : List PyVal)
  | dict (entries : List (String × PyVal))

/-- `isinstance(el, list)`. -/
def PyVal.isList : PyVal → Bool
  | .list _ => true
  | _ => false

/-- `isinstance(el, str)`. -/
def PyVal.isStr : PyVal → Bool
  | .str _ => true
  | _ => false

def PyVal.getStr : PyVal → Option String
  | .str s => some s
  | _ => none

/-- A canonical text rendered back as Python nested lists, as stored by
`[[token.text for token in sent] for sent in self.nlp(content).sents]`. -/
def toPyText (t : CText) : List PyVal :=
  t.map (fun sent => PyVal.list (sent.map PyVal.str))

/-- The Text invariant of the spec: an element of canonical content is a list
of token strings, never a raw string. -/
def PyVal.isTokenList : PyVal → Bool
  | .list ws => ws.all PyVal.isStr
  | _ => false

/-- Content plus content-type tag as assigned by the constructor. -/
inductive NormContent where
  | text (sentences : List PyVal)
  | corpus (entries : List (String × PyVal)) (classes : List String)

/-- Outcome of the constructor's shape detection: attributes assigned, the
constructor returning normally with `content`/`content_type` never assigned,
or an uncaught Python exception (TypeError / IndexError). -/
inductive NormOutcome where
  | set (c : NormContent)
  | silentUnset
  | pyError

/-- The shape-detection cascade of `Readability.__init__` (`readability.py`
lines 85-129), parameterized by the external sentence segmenter `seg`
(`self.nlp`): a string is segmented; a list with at least one list element is
stored as-is; a list of strings is joined with single spaces and re-segmented
(a list with non-string, non-list elements makes `' '.join` raise TypeError);
a dict is probed at its first key for depth-4 nesting, indexing errors raise,
and every other dict shape falls off the end of the constructor with no
attribute assigned. -/
def normalize (seg : String → CText) : PyVal → NormOutcome
  | .str s => .set (.text (toPyText (seg s)))
  | .list xs =>
      if xs.any PyVal.isList then .set (.text xs)
      else if xs.all PyVal.isStr then
        .set (.text (toPyText (seg (String.intercalate " " (xs.filterMap PyVal.getStr)))))
      else .pyError
  | .dict entries =>
      match entries with
      | [] => .pyError
      | (_, v) :: _ =>
        match v with
        | .list vs =>
          match vs with
          | [] => .pyError
          | w :: _ =>
            match w with
            | .list ws =>
              match ws with
              | [] => .pyError
              | u :: _ =>
                if u.isList then .set (.corpus entries (entries.map Prod.fst))
                else .silentUnset
            | _ => .silentUnset
        | _ => .silentUnset

/-- `nb_words` as accumulated on the string path (`readability.py` lines
89-91): the sum of the sentence lengths of the normalized content. -/
def stringPathNbWords (seg : String → CText) (s : String) : Nat :=
  ((seg s).map List.length).sum

/-- The string path emits the short-text warning iff `nb_words < 101`
(`readability.py` line 92). -/
def stringPathWarns (seg : String → CText) (s : String) : Bool :=
  stringPathNbWords seg s < 101

/-- `nb_words` as accumulated on the flat-token path (`readability.py` lines
109-112): the inner loop adds `len(sentence)` once per token of the sentence,
so the total is the sum of the squared sentence lengths of the re-segmented
content. -/
def flatPathNbWords (seg : String → CText) (tokens : List String) : Nat :=
  ((seg (String.intercalate " " tokens)).map (fun sent => sent.length * sent.length)).sum

/-- The flat-token path emits the warning iff its `nb_words < 101`
(`readability.py` line 113). -/
def flatPathWarns (seg : String → CText) (tokens : List String) : Bool :=
  flatPathNbWords seg tokens < 101

/-- A segmenter that puts everything in one 11-token sentence. -/
def segEleven : String → CText := fun _ => [List.replicate 11 "a"]

/-- A segmenter that puts everything in one 100-token sentence. -/
def segHundred : String → CText := fun _ => [List.replicate 100 "a"]

/-- A segmenter returning no sentences. -/
def segEmpty : String → CText := fun _ => []

/-- A list input mixing a raw string and a token list. -/
def mixedInput : List PyVal := [.str "hello", .list [.str "a", .str "b"]]

/-- Every sentence produced by re-tokenization satisfies the token-list
invariant. -/
theorem toPyText_isTokenList (t : CText) :
    (toPyText t).all PyVal.isTokenList = true := by
  rw [List.all_eq_true]
  intro sent hs
  simp only [toPyText] at hs
  rcases List.mem_map.mp hs with ⟨x, hx, rfl⟩
  show (x.map PyVal.str).all PyVal.isStr = true
  rw [List.all_eq_true]
  intro y hy
  rcases List.mem_map.mp hy with ⟨z, hz, rfl⟩
  rfl

end Readi

/-- C2: a dict whose first value is not depth-4 nested (here `{"A": "hello"}`)
matches none of the accepted shapes, and the constructor returns normally with
`content` and `content_type` never assigned — the silent unset state the claim
rules out, instead of an explicit UnrecognizedContentShape failure. -/
theorem c2_silent_fallthrough (seg : String → Readi.CText) :
    Readi.normalize seg (Readi.PyVal.dict [("A", Readi.PyVal.str "hello")])
      = Readi.NormOutcome.silentUnset := rfl

/-- C6: the flat-token path, handed 11 tokens segmented into one 11-token
sentence, emits no warning although the normalized word count 11 is below 100
(its counter reaches 11 * 11 = 121 ≥ 101); and the string path warns at a word
count of exactly 100, although the claim says no warning is emitted at 100 or
more words. -/
theorem c6_warning_threshold_bug :
    Readi.flatPathWarns Readi.segEleven (List.replicate 11 "a") = false
    ∧ ((Readi.segEleven (String.intercalate " " (List.replicate 11 "a"))).map
        List.length).sum = 11
    ∧ 11 < 100
    ∧ Readi.stringPathWarns Readi.segHundred "some text" = true
    ∧ Readi.stringPathNbWords Readi.segHundred "some text" = 100 := by
  refine ⟨?_, ?_, by decide, ?_, ?_⟩ <;>
    simp [Readi.flatPathWarns, Readi.flatPathNbWords, Readi.segEleven,
      Readi.stringPathWarns, Readi.stringPathNbWords, Readi.segHundred]

/-- C7 counterexample: the list `["hello", ["a","b"]]` mixes a raw string with
a token list; the detection accepts it as-is (one element is a list), and the
stored content keeps the raw string `"hello"`, violating the Text invariant. -/
theorem c7_mixed_list_counterexample :
    Readi.normalize Readi.segEmpty (Readi.PyVal.list Readi.mixedInput)
      = Readi.NormOutcome.set (Readi.NormContent.text Readi.mixedInput)
    ∧ Readi.mixedInput.all Readi.PyVal.isTokenList = false :=
  ⟨rfl, rfl⟩

/-- C7 amended: every list input accepted by normalization whose elements are
all token lists (the nested branch, stored as-is) or all raw strings (the flat
branch, re-tokenized through the segmenter) yields content satisfying the Text
invariant; a list that mixes raw strings with token lists is stored unchanged,
so a raw string element survives normalization and the invariant fails for
it. -/
theorem c7_wellformed_list_invariant (seg : String → Readi.CText)
    (xs c : List Readi.PyVal)
    (hx : xs.all Readi.PyVal.isTokenList = true ∨ xs.all Readi.PyVal.isStr = true)
    (hn : Readi.normalize seg (Readi.PyVal.list xs)
        = Readi.NormOutcome.set (Readi.NormContent.text c)) :
    c.all Readi.PyVal.isTokenList = true := by
  by_cases h1 : xs.any Readi.PyVal.isList
  · simp only [Readi.normalize, h1, if_true] at hn
    cases hn
    rcases hx with hx | hx
    · exact hx
    · exfalso
      rcases List.any_eq_true.mp h1 with ⟨x, hmem, hxl⟩
      have hxs := List.all_eq_true.mp hx x hmem
      cases x <;> simp [Readi.PyVal.isList, Readi.PyVal.isStr] at hxl hxs
  · by_cases h2 : xs.all Readi.PyVal.isStr
    · simp only [Readi.normalize, h1, h2, if_false, if_true, Bool.false_eq_true] at hn
      cases hn
      exact Readi.toPyText_isTokenList _
    · simp [Readi.normalize, h1, h2] at hn

/-- C7 witness: a concrete flat list of raw strings is re-tokenized through
the segmenter and its content satisfies the invariant (the all-strings
hypothesis and the normalization equation hold by computation). -/
theorem c7_wellformed_list_invariant_witness :
    ([Readi.PyVal.str "a", Readi.PyVal.str "b"].all Readi.PyVal.isStr = true)
    ∧ (Readi.toPyText [List.replicate 11 "a"]).all Readi.PyVal.isTokenList = true :=
  ⟨rfl, c7_wellformed_list_invariant Readi.segEleven
    [Readi.PyVal.str "a", Readi.PyVal.str "b"]
    (Readi.toPyText [List.replicate 11 "a"])
    (Or.inr rfl) rfl⟩

namespace Readi

/-- Mode parameter of the diversity ratios: `"corrected"`, `"root"`, or any
other value (the default branch). -/
inductive DivMode where
  | std
  | root
  | corrected

/-- A token as produced by the external NLP tagger: its text, whether it is
punctuation, and its part-of-speech label. -/
structure TaggedToken where
  text : String
  is_punct : Bool
  pos : String

/-- The noun subset extracted by both `noun_token_ratio` variants:
`[token.text for token in nlp(doc) if (not token.is_punct and token.pos_ == "NOUN")]`. -/
def extractNouns (nlp : String → List TaggedToken) (doc : String) : List String :=
  ((nlp doc).filter (fun token => !token.is_punct && token.pos == "NOUN")).map
    TaggedToken.text

namespace StatsA

/-- `type_token_ratio` of `readability/readability/stats/diversity.py`
(lines 11-47), over the whitespace-split, punctuation-stripped token list:
`nb_unique` distinct tokens over `nb_tokens` tokens, with the zero-token
branch returning the sentinel 0. -/
noncomputable def type_token_ratio (tokens : List String) (mode : DivMode) : ℝ :=
  let nb_unique := tokens.dedup.length
  let nb_tokens := tokens.length
  if nb_tokens = 0 then 0
  else
    match mode with
    | .corrected => nb_unique / Real.sqrt (2 * nb_tokens)
    | .root => nb_unique / Real.sqrt nb_tokens
    | .std => nb_unique / nb_tokens

/-- `noun_token_ratio` of `readability/readability/stats/diversity.py`
(lines 50-80): the same ratio over the tagger's noun subset, with the
zero-token branch returning the sentinel 0. -/
noncomputable def noun_token_ratio (doc : String) (nlp : String → List TaggedToken)
    (mode : DivMode) : ℝ :=
  let nouns := extractNouns nlp doc
  let nb_unique := nouns.dedup.length
  let nb_tokens := nouns.length
  if nb_tokens = 0 then 0
  else
    match mode with
    | .corrected => nb_unique / Real.sqrt (2 * nb_tokens)
    | .root => nb_unique / Real.sqrt nb_tokens
    | .std => nb_unique / nb_tokens

end StatsA

namespace StatsB

/-- `type_token_ratio` of `readability/stats/diversity.py` (lines 19-55): the
near-duplicate variant whose zero-token branch returns the sentinel -1. -/
noncomputable def type_token_ratio (tokens : List String) (mode : DivMode) : ℝ :=
  let nb_unique := tokens.dedup.length
  let nb_tokens := tokens.length
  if nb_tokens = 0 then -1
  else
    match mode with
    | .corrected => nb_unique / Real.sqrt (2 * nb_tokens)
    | .root => nb_unique / Real.sqrt nb_tokens
    | .std => nb_unique / nb_tokens

/-- `noun_token_ratio` of `readability/stats/diversity.py` (lines 58-100):
near-duplicate of the StatsA variant whose zero-token branch returns the
sentinel -1. -/
noncomputable def noun_token_ratio (doc : String) (nlp : String → List TaggedToken)
    (mode : DivMode) : ℝ :=
  let nouns := extractNouns nlp doc
  let nb_unique := nouns.dedup.length
  let nb_tokens := nouns.length
  if nb_tokens = 0 then -1
  else
    match mode with
    | .corrected => nb_unique / Real.sqrt (2 * nb_tokens)
    | .root => nb_unique / Real.sqrt nb_tokens
    | .std => nb_unique / nb_tokens

end StatsB

/-- A tagger that recognizes nothing. -/
def nlpNone : String → List TaggedToken := fun _ => []

end Readi

/-- C8: on a token list with n ≥ 1 tokens and u distinct tokens,
`type_token_ratio` returns u/n in default mode, u/√n in root mode and u/√(2n)
in corrected mode; the default value lies in (0, 1]; for n > 1 the root value
is at least the default value; and the two source variants agree on every
non-empty input. -/
theorem c8_type_token_ratio (tokens : List String) (h : 1 ≤ tokens.length) :
    Readi.StatsA.type_token_ratio tokens Readi.DivMode.std
      = (tokens.dedup.length : ℝ) / (tokens.length : ℝ)
    ∧ Readi.StatsA.type_token_ratio tokens Readi.DivMode.root
      = (tokens.dedup.length : ℝ) / Real.sqrt (tokens.length : ℝ)
    ∧ Readi.StatsA.type_token_ratio tokens Readi.DivMode.corrected
      = (tokens.dedup.length : ℝ) / Real.sqrt (2 * (tokens.length : ℝ))
    ∧ 0 < Readi.StatsA.type_token_ratio tokens Readi.DivMode.std
    ∧ Readi.StatsA.type_token_ratio tokens Readi.DivMode.std ≤ 1
    ∧ (1 < tokens.length →
        Readi.StatsA.type_token_ratio tokens Readi.DivMode.std
          ≤ Readi.StatsA.type_token_ratio tokens Readi.DivMode.root)
    ∧ (∀ mode, Readi.StatsA.type_token_ratio tokens mode
        = Readi.StatsB.type_token_ratio tokens mode) := by
  have hne : tokens.length ≠ 0 := by omega
  have hnpos : (0 : ℝ) < (tokens.length : ℝ) := by
    exact_mod_cast Nat.pos_of_ne_zero hne
  have hune : tokens.dedup.length ≠ 0 := by
    intro hd
    exact hne (by simpa [List.dedup_eq_nil] using List.length_eq_zero.mp hd)
  have hupos : (0 : ℝ) < (tokens.dedup.length : ℝ) := by
    exact_mod_cast Nat.pos_of_ne_zero hune
  have hule : (tokens.dedup.length : ℝ) ≤ (tokens.length : ℝ) := by
    exact_mod_cast (List.dedup_sublist tokens).length_le
  refine ⟨?_, ?_, ?_, ?_, ?_, ?_, ?_⟩
  · simp [Readi.StatsA.type_token_ratio, hne]
  · simp [Readi.StatsA.type_token_ratio, hne]
  · simp [Readi.StatsA.type_token_ratio, hne]
  · simp only [Readi.StatsA.type_token_ratio, hne, if_neg, if_false]
    positivity
  · simp only [Readi.StatsA.type_token_ratio, hne, if_neg, if_false]
    exact div_le_one_of_le₀ hule (le_of_lt hnpos)
  · intro hgt
    simp only [Readi.StatsA.type_token_ratio, hne, if_neg, if_false]
    have hone : (1 : ℝ) ≤ (tokens.length : ℝ) := by exact_mod_cast h
    have hsle : Real.sqrt (tokens.length : ℝ) ≤ (tokens.length : ℝ) :=
      (Real.sqrt_le_left (le_of_lt hnpos)).mpr (by nlinarith)
    have hspos : (0 : ℝ) < Real.sqrt (tokens.length : ℝ) :=
      Real.sqrt_pos.mpr hnpos
    exact div_le_div_of_nonneg_left (le_of_lt hupos) hspos hsle
  · intro mode
    cases mode <;> simp [Readi.StatsA.type_token_ratio, Readi.StatsB.type_token_ratio, hne]

/-- C8 witness: the properties instantiated on the concrete token list
`["a", "b", "a"]`. -/
theorem c8_type_token_ratio_witness :
    1 ≤ (["a", "b", "a"] : List String).length
    ∧ (0 < Readi.StatsA.type_token_ratio ["a", "b", "a"] Readi.DivMode.std
        ∧ Readi.StatsA.type_token_ratio ["a", "b", "a"] Readi.DivMode.std ≤ 1
        ∧ Readi.StatsA.type_token_ratio ["a", "b", "a"] Readi.DivMode.std
          ≤ Readi.StatsA.type_token_ratio ["a", "b", "a"] Readi.DivMode.root) :=
  ⟨by decide,
    ⟨(c8_type_token_ratio ["a", "b", "a"] (by decide)).2.2.2.1,
     (c8_type_token_ratio ["a", "b", "a"] (by decide)).2.2.2.2.1,
     (c8_type_token_ratio ["a", "b", "a"] (by decide)).2.2.2.2.2.1 (by decide)⟩⟩

/-- C9: the zero-eligible-token sentinels of the two near-duplicate diversity
files disagree: the `readability/readability` variants return 0 while the
`readability/stats` variants return -1, so the functions do not all return one
and the same sentinel value as the claim requires. -/
theorem c9_sentinel_mismatch :
    Readi.StatsA.type_token_ratio [] Readi.DivMode.std = 0
    ∧ Readi.StatsB.type_token_ratio [] Readi.DivMode.std = -1
    ∧ Readi.StatsA.noun_token_ratio "" Readi.nlpNone Readi.DivMode.std = 0
    ∧ Readi.StatsB.noun_token_ratio "" Readi.nlpNone Readi.DivMode.std = -1
    ∧ (0 : ℝ) ≠ -1 := by
  refine ⟨?_, ?_, ?_, ?_, by norm_num⟩ <;>
    simp [Readi.StatsA.type_token_ratio, Readi.StatsB.type_token_ratio,
      Readi.StatsA.noun_token_ratio, Readi.StatsB.noun_token_ratio,
      Readi.extractNouns, Readi.nlpNone]

namespace Readi

/-- The six formula names accepted by `Readability.score`. -/
inductive FormulaName where
  | gfi
  | ari
  | fre
  | fkgl
  | smog
  | rel

/-- Modelled from the spec: `common_scores.GFI_score` is not under the given
sources; the Gunning Fog Index formula 0.4 × ((W/S) + 100×(LW/W)) is taken
from the spec's formula table (§4.3). -/
noncomputable def GFI_stats (st : Statistics) : ℝ :=
  0.4 * ((st.totalWords : ℝ) / (st.totalSentences : ℝ)
    + 100 * ((st.totalLongWords : ℝ) / (st.totalWords : ℝ)))

/-- Modelled from the spec: Automated Readability Index
4.71×(C/W) + 0.5×(W/S) − 21.43 (§4.3). -/
noncomputable def ARI_stats (st : Statistics) : ℝ :=
  4.71 * ((st.totalCharacters : ℝ) / (st.totalWords : ℝ))
    + 0.5 * ((st.totalWords : ℝ) / (st.totalSentences : ℝ)) - 21.43

/-- Modelled from the spec: Flesch Reading Ease
206.835 − 1.015×(W/S) − 84.6×(SYL/W) (§4.3). -/
noncomputable def FRE_stats (st : Statistics) : ℝ :=
  206.835 - 1.015 * ((st.totalWords : ℝ) / (st.totalSentences : ℝ))
    - 84.6 * ((st.totalSyllables : ℝ) / (st.totalWords : ℝ))

/-- Modelled from the spec: Flesch-Kincaid Grade Level
0.39×(W/S) + 11.8×(SYL/W) − 15.59 (§4.3). -/
noncomputable def FKGL_stats (st : Statistics) : ℝ :=
  0.39 * ((st.totalWords : ℝ) / (st.totalSentences : ℝ))
    + 11.8 * ((st.totalSyllables : ℝ) / (st.totalWords : ℝ)) - 15.59

/-- Modelled from the spec: SMOG 3.1291 + 1.0430×√(30×(PSYL/S)) (§4.3). -/
noncomputable def SMOG_stats (st : Statistics) : ℝ :=
  3.1291 + 1.0430 * Real.sqrt (30 * ((st.nbPolysyllables : ℝ) / (st.totalSentences : ℝ)))

/-- Modelled from the spec: REL is "a linear combination of W/S and SYL/W
analogous to FRE, with language-tuned constants" (§4.3); the constants are
parameters `ra`, `rb`, `rc`. -/
noncomputable def REL_stats (ra rb rc : ℝ) (st : Statistics) : ℝ :=
  ra - rb * ((st.totalWords : ℝ) / (st.totalSentences : ℝ))
    - rc * ((st.totalSyllables : ℝ) / (st.totalWords : ℝ))

/-- The dispatch table of `Readability.score` (`readability.py` lines
141-152), mapping each formula name to its `common_scores` function. -/
noncomputable def formulaOf (ra rb rc : ℝ) : FormulaName → Statistics → ℝ
  | .gfi => GFI_stats
  | .ari => ARI_stats
  | .fre => FRE_stats
  | .fkgl => FKGL_stats
  | .smog => SMOG_stats
  | .rel => REL_stats ra rb rc

/-- Modelled from the spec: the dual-mode contract of every `common_scores`
formula function (§4.3) — a supplied snapshot is used directly; with none
supplied the Statistics Aggregator is invoked on the text. -/
noncomputable def scoreText (f : Statistics → ℝ) (syl : String → Nat) (t : CText)
    (stats : Option Statistics) : ℝ :=
  match stats with
  | some st => f st
  | none => f (aggregate syl t)

/-- Result of a scoring accessor: a scalar for a single text (or the corpus
fallthrough of the dedicated accessors), or a class-keyed mapping of ordered
score lists for a corpus. -/
inductive ScoreResult where
  | scalar (x : ℝ)
  | mapping (m : List (String × List ℝ))

/-- `Readability.score(name)` (`readability.py` lines 131-183): for a text,
apply the dispatched formula to the stored snapshot if present, otherwise to
the text; for a corpus, build `{level: [score, ...]}` over `self.classes`,
per class from the stored snapshot list if `corpus_statistics` exists,
otherwise from the texts. -/
noncomputable def RSession.score (ra rb rc : ℝ) (syl : String → Nat)
    (name : FormulaName) (s : RSession) : ScoreResult :=
  match s.content with
  | .text t =>
      match s.statistics with
      | some st => .scalar (formulaOf ra rb rc name st)
      | none => .scalar (formulaOf ra rb rc name (aggregate syl t))
  | .corpus data =>
      .mapping (s.classes.map (fun level =>
        (level,
          match s.corpus_statistics with
          | some cs => (cs level).map (formulaOf ra rb rc name)
          | none => (data level).map (fun t => formulaOf ra rb rc name (aggregate syl t)))))

/-- The dedicated `Readability.gfi` accessor (`readability.py` lines 187-217),
a duplicate of the `score` body specialized to `GFI_score`. -/
noncomputable def RSession.gfi (syl : String → Nat) (s : RSession) : ScoreResult :=
  match s.content with
  | .text t =>
      match s.statistics with
      | some st => .scalar (GFI_stats st)
      | none => .scalar (GFI_stats (aggregate syl t))
  | .corpus data =>
      .mapping (s.classes.map (fun level =>
        (level,
          match s.corpus_statistics with
          | some cs => (cs level).map GFI_stats
          | none => (data level).map (fun t => GFI_stats (aggregate syl t)))))

/-- The dedicated `Readability.ari` accessor (`readability.py` lines 218-228):
a scalar for a text; for a corpus it only prints a to-do note and falls
through to `return -1`. -/
noncomputable def RSession.ari (syl : String → Nat) (s : RSession) : ScoreResult :=
  match s.content with
  | .text t =>
      match s.statistics with
      | some st => .scalar (ARI_stats st)
      | none => .scalar (ARI_stats (aggregate syl t))
  | .corpus _ => .scalar (-1)

/-- The dedicated `Readability.fre` accessor (`readability.py` lines 229-239),
same shape as `ari`. -/
noncomputable def RSession.fre (syl : String → Nat) (s : RSession) : ScoreResult :=
  match s.content with
  | .text t =>
      match s.statistics with
      | some st => .scalar (FRE_stats st)
      | none => .scalar (FRE_stats (aggregate syl t))
  | .corpus _ => .scalar (-1)

/-- The dedicated `Readability.fkgl` accessor (`readability.py` lines
240-250), same shape as `ari`. -/
noncomputable def RSession.fkgl (syl : String → Nat) (s : RSession) : ScoreResult :=
  match s.content with
  | .text t =>
      match s.statistics with
      | some st => .scalar (FKGL_stats st)
      | none => .scalar (FKGL_stats (aggregate syl t))
  | .corpus _ => .scalar (-1)

/-- The dedicated `Readability.smog` accessor (`readability.py` lines
251-261), same shape as `ari`. -/
noncomputable def RSession.smog (syl : String → Nat) (s : RSession) : ScoreResult :=
  match s.content with
  | .text t =>
      match s.statistics with
      | some st => .scalar (SMOG_stats st)
      | none => .scalar (SMOG_stats (aggregate syl t))
  | .corpus _ => .scalar (-1)

/-- The dedicated `Readability.rel` accessor (`readability.py` lines
262-272), same shape as `ari`. -/
noncomputable def RSession.rel (ra rb rc : ℝ) (syl : String → Nat)
    (s : RSession) : ScoreResult :=
  match s.content with
  | .text t =>
      match s.statistics with
      | some st => .scalar (REL_stats ra rb rc st)
      | none => .scalar (REL_stats ra rb rc (aggregate syl t))
  | .corpus _ => .scalar (-1)

/-- A one-class corpus session holding the example text, uncompiled. -/
noncomputable def exCorpusSession : RSession :=
  ⟨"fr", "spacy_sm", ContentVal.corpus (fun _ => [exText]), ["A"], none, none⟩

end Readi

/-- C3 counterexample: on a corpus session the dedicated `ari` accessor
returns the scalar -1, not a class-keyed mapping as the claim requires. -/
theorem c3_dedicated_ari_counterexample :
    Readi.RSession.ari Readi.sylOne Readi.exCorpusSession
      = Readi.ScoreResult.scalar (-1)
    ∧ ¬ ∃ m, Readi.RSession.ari Readi.sylOne Readi.exCorpusSession
        = Readi.ScoreResult.mapping m := by
  refine ⟨rfl, ?_⟩
  rintro ⟨m, hm⟩
  rw [show Readi.RSession.ari Readi.sylOne Readi.exCorpusSession
      = Readi.ScoreResult.scalar (-1) from rfl] at hm
  exact Readi.ScoreResult.noConfusion hm

/-- C3 amended: `score(name)` returns a scalar for a text session and, for a
corpus session whose statistics are absent or produced by `compile`, the
class-keyed mapping of ordered per-text scores with key list equal to the
session's classes; the dedicated `gfi` accessor coincides with `score` on
every session; the dedicated `ari`, `fre`, `fkgl`, `smog` and `rel` accessors
return the text scalar but, on a corpus, fall through to the scalar -1
instead of a mapping. -/
theorem c3_accessor_dispatch (ra rb rc : ℝ) (syl : String → Nat)
    (name : Readi.FormulaName) (s : Readi.RSession) :
    (∀ t, s.content = Readi.ContentVal.text t →
      ∃ x, Readi.RSession.score ra rb rc syl name s = Readi.ScoreResult.scalar x)
    ∧ (∀ data, s.content = Readi.ContentVal.corpus data →
        (s.corpus_statistics = none
          ∨ s.corpus_statistics = some (Readi.compiledCorpusStats syl data)) →
        Readi.RSession.score ra rb rc syl name s
          = Readi.ScoreResult.mapping (s.classes.map (fun level =>
              (level, (data level).map
                (fun t => Readi.formulaOf ra rb rc name (Readi.aggregate syl t)))))
        ∧ (s.classes.map (fun level =>
              (level, (data level).map
                (fun t => Readi.formulaOf ra rb rc name (Readi.aggregate syl t))))).map
            Prod.fst = s.classes)
    ∧ Readi.RSession.gfi syl s = Readi.RSession.score ra rb rc syl Readi.FormulaName.gfi s
    ∧ (∀ t, s.content = Readi.ContentVal.text t →
        Readi.RSession.ari syl s = Readi.RSession.score ra rb rc syl Readi.FormulaName.ari s
        ∧ Readi.RSession.fre syl s = Readi.RSession.score ra rb rc syl Readi.FormulaName.fre s
        ∧ Readi.RSession.fkgl syl s = Readi.RSession.score ra rb rc syl Readi.FormulaName.fkgl s
        ∧ Readi.RSession.smog syl s = Readi.RSession.score ra rb rc syl Readi.FormulaName.smog s
        ∧ Readi.RSession.rel ra rb rc syl s
            = Readi.RSession.score ra rb rc syl Readi.FormulaName.rel s)
    ∧ (∀ data, s.content = Readi.ContentVal.corpus data →
        Readi.RSession.ari syl s = Readi.ScoreResult.scalar (-1)
        ∧ Readi.RSession.fre syl s = Readi.ScoreResult.scalar (-1)
        ∧ Readi.RSession.fkgl syl s = Readi.ScoreResult.scalar (-1)
        ∧ Readi.RSession.smog syl s = Readi.ScoreResult.scalar (-1)
        ∧ Readi.RSession.rel ra rb rc syl s = Readi.ScoreResult.scalar (-1)) := by
  refine ⟨?_, ?_, ?_, ?_, ?_⟩
  · intro t ht
    cases hst : s.statistics with
    | none =>
        exact ⟨Readi.formulaOf ra rb rc name (Readi.aggregate syl t),
          by simp [Readi.RSession.score, ht, hst]⟩
    | some st =>
        exact ⟨Readi.formulaOf ra rb rc name st,
          by simp [Readi.RSession.score, ht, hst]⟩
  · intro data hd hcs
    constructor
    · rcases hcs with hcs | hcs <;>
        simp [Readi.RSession.score, hd, hcs, Readi.compiledCorpusStats,
          List.map_map, Function.comp_def, Readi.aggregateCorpusText, Readi.aggregate]
    · simp [List.map_map, Function.comp_def]
  · cases hcon : s.content with
    | text t =>
        cases hst : s.statistics <;>
          simp [Readi.RSession.gfi, Readi.RSession.score, hcon, hst, Readi.formulaOf]
    | corpus data =>
        cases hcs : s.corpus_statistics <;>
          simp [Readi.RSession.gfi, Readi.RSession.score, hcon, hcs, Readi.formulaOf]
  · intro t ht
    cases hst : s.statistics <;>
      refine ⟨?_, ?_, ?_, ?_, ?_⟩ <;>
        simp [Readi.RSession.ari, Readi.RSession.fre, Readi.RSession.fkgl,
          Readi.RSession.smog, Readi.RSession.rel, Readi.RSession.score, ht, hst,
          Readi.formulaOf]
  · intro data hd
    refine ⟨?_, ?_, ?_, ?_, ?_⟩ <;>
      simp [Readi.RSession.ari, Readi.RSession.fre, Readi.RSession.fkgl,
        Readi.RSession.smog, Readi.RSession.rel, hd]

/-- C3 witness: the amended dispatch behavior instantiated on the concrete
one-class corpus session, with the content and statistics hypotheses
discharged concretely. -/
theorem c3_accessor_dispatch_witness :
    Readi.exCorpusSession.content
      = Readi.ContentVal.corpus (fun _ => [Readi.exText])
    ∧ Readi.exCorpusSession.corpus_statistics = none
    ∧ Readi.RSession.score 0 0 0 Readi.sylOne Readi.FormulaName.gfi
        Readi.exCorpusSession
      = Readi.ScoreResult.mapping (Readi.exCorpusSession.classes.map (fun level =>
          (level, ((fun _ => [Readi.exText]) level).map
            (fun t => Readi.formulaOf 0 0 0 Readi.FormulaName.gfi
              (Readi.aggregate Readi.sylOne t))))) :=
  ⟨rfl, rfl,
    ((c3_accessor_dispatch 0 0 0 Readi.sylOne Readi.FormulaName.gfi
        Readi.exCorpusSession).2.1 (fun _ => [Readi.exText]) rfl (Or.inl rfl)).1⟩

/-- C4: for an uncompiled session, scoring after `compile` and scoring without
`compile` return identical results for every formula name, on texts and on
corpora; and a formula given a snapshot uses it directly — its result does not
depend on the text, so nothing is recomputed from it. -/
theorem c4_compiled_equals_uncompiled (ra rb rc : ℝ) (syl : String → Nat)
    (name : Readi.FormulaName) (s : Readi.RSession)
    (h1 : s.statistics = none) (h2 : s.corpus_statistics = none) :
    Readi.RSession.score ra rb rc syl name (Readi.compileR syl s)
      = Readi.RSession.score ra rb rc syl name s
    ∧ ∀ (f : Readi.Statistics → ℝ) (st : Readi.Statistics) (t t' : Readi.CText),
        Readi.scoreText f syl t (some st) = Readi.scoreText f syl t' (some st) := by
  refine ⟨?_, fun f st t t' => rfl⟩
  cases hcon : s.content with
  | text t =>
      simp [Readi.RSession.score, Readi.compileR, hcon, h1]
  | corpus data =>
      simp [Readi.RSession.score, Readi.compileR, hcon, h2,
        Readi.compiledCorpusStats, List.map_map, Function.comp_def,
        Readi.aggregateCorpusText, Readi.aggregate]

/-- C4 witness: compiled and uncompiled GFI scoring agree on a concrete
uncompiled single-text session. -/
theorem c4_compiled_equals_uncompiled_witness :
    (⟨"fr", "spacy_sm", Readi.ContentVal.text Readi.exText, [], none,
        none⟩ : Readi.RSession).statistics = none
    ∧ (⟨"fr", "spacy_sm", Readi.ContentVal.text Readi.exText, [], none,
        none⟩ : Readi.RSession).corpus_statistics = none
    ∧ Readi.RSession.score 0 0 0 Readi.sylOne Readi.FormulaName.gfi
        (Readi.compileR Readi.sylOne
          ⟨"fr", "spacy_sm", Readi.ContentVal.text Readi.exText, [], none, none⟩)
      = Readi.RSession.score 0 0 0 Readi.sylOne Readi.FormulaName.gfi
          ⟨"fr", "spacy_sm", Readi.ContentVal.text Readi.exText, [], none, none⟩ :=
  ⟨rfl, rfl,
    (c4_compiled_equals_uncompiled 0 0 0 Readi.sylOne Readi.FormulaName.gfi
      ⟨"fr", "spacy_sm", Readi.ContentVal.text Readi.exText, [], none, none⟩
      rfl rfl).1⟩
